import Mathlib

/-!
Verification of the `testkit` execution harness (`testkit/testkit.go`).

The harness (`TestKit`) drives an external SQL session.  The session, the
parser, the record sets and the structured error type of the engine are
collaborator black boxes; we embed them as an explicit behaviour record
(`SessionBehavior`) of state-passing functions, and translate the harness
functions (`Exec`, `MustQuery`, `QueryToErr`, `MustGetErrCode`, `HasPlan`,
`MustUseIndex`, the connection-id generator) directly from the Go source.
Calls made by the harness into the session are recorded as an event list so
that claims about which engine operations run (and in which order) can be
stated.
-/

namespace TestKit

/-- Errors of the engine, as the harness observes them: either the library's
structured error type `*terror.Error` carrying a SQL error code, an
unstructured error (tagged by a number), or a trace-annotated error produced
by `errors.Trace`. -/
inductive GoErr where
  | terror (code : Nat)
  | other (tag : Nat)
  | traced (e : GoErr)
deriving DecidableEq, Repr

/-- Model of `errors.Cause`: strip the trace annotations and return the
underlying error. -/
def cause : GoErr → GoErr
  | GoErr.traced e => cause e
  | GoErr.terror c => GoErr.terror c
  | GoErr.other t => GoErr.other t

/-- One entry of the statement context's warning list.  `StmtCtx.AppendError`
appends an error-level entry; parser warnings are warn-level entries. -/
inductive WarnEntry where
  | warnLevel (e : GoErr)
  | errLevel (e : GoErr)
deriving DecidableEq, Repr

/-- Opaque statement handle returned by `session.Parse`. -/
abbrev Stmt := Nat

/-- Opaque record-set handle (`sqlexec.RecordSet`); `Option` models Go `nil`. -/
abbrev RecordSet := Nat

/-- Opaque `types.Datum` value. -/
abbrev Datum := Nat

/-- Model of `types.NewDatum`, converting a positional argument to a datum;
on the opaque datum type the conversion is the identity. -/
def newDatum (v : Datum) : Datum := v

/-- Observable session state: the statement context's warning list plus an
opaque remainder (`mem`) standing for all other engine state. -/
structure SessState where
  warnings : List WarnEntry
  mem : Nat
deriving DecidableEq, Repr

/-- Model of `StmtCtx.AppendError`: append an error-level entry to the
warning list. -/
def appendError (st : SessState) (e : GoErr) : SessState :=
  { st with warnings := st.warnings ++ [WarnEntry.errLevel e] }

/-- Model of `StmtCtx.AppendWarnings`. -/
def appendWarnings (st : SessState) (ws : List WarnEntry) : SessState :=
  { st with warnings := st.warnings ++ ws }

/-- Session-API calls the harness makes, recorded in order. -/
inductive SessEvent where
  | parse (sql : String)
  | executeStmt (s : Stmt)
  | prepareStmt (sql : String)
  | executePreparedStmt (id : Nat)
  | dropPreparedStmt (id : Nat)
deriving DecidableEq, Repr

/-- Result of a harness `Exec` call: final session state, the session-API
calls made, and the `(RecordSet, error)` pair Go returns. -/
structure ExecOut where
  st : SessState
  events : List SessEvent
  rs : Option RecordSet
  err : Option GoErr
deriving DecidableEq, Repr

/-- Prepend an event to the event list of an `ExecOut`. -/
def consEvent (ev : SessEvent) (o : ExecOut) : ExecOut :=
  { o with events := ev :: o.events }

/-- Outcome of a harness helper that can fail the test fatally
(`require.*` assertions call `FailNow`). -/
inductive TestOutcome (α : Type) where
  | ok (a : α)
  | fatal
deriving DecidableEq, Repr

/-- Behaviour of the collaborator session/engine, a black box per the
harness contract: each operation maps the session state (and its inputs) to
a successor state and a result. -/
structure SessionBehavior where
  parse : SessState → String → SessState × Except GoErr (List Stmt)
  executeStmt : SessState → Stmt → SessState × (Option RecordSet × Option GoErr)
  prepareStmt : SessState → String → SessState × Except GoErr Nat
  executePreparedStmt : SessState → Nat → List Datum → SessState × (Option RecordSet × Option GoErr)
  dropPreparedStmt : SessState → Nat → SessState × Option GoErr
  getRows : RecordSet → List Nat × Option GoErr
  closeRS : RecordSet → Option GoErr
  resultToStrings : RecordSet → Except GoErr (List (List String))

/-- The `for i, stmt := range stmts` loop of `Exec` for the iterations after
the first: `rs0` already holds the first statement's record set.  On an
execution error the loop appends the error to the statement context and
returns `nil` with the traced error. -/
def execRest (sb : SessionBehavior) : SessState → List Stmt → Option RecordSet → ExecOut
  | st, [], rs0 => ⟨st, [], rs0, none⟩
  | st, s :: rest, rs0 =>
    match (sb.executeStmt st s).2.2 with
    | some e =>
      ⟨appendError (sb.executeStmt st s).1 e, [SessEvent.executeStmt s], none,
        some (GoErr.traced e)⟩
    | none =>
      consEvent (SessEvent.executeStmt s) (execRest sb (sb.executeStmt st s).1 rest rs0)

/-- The whole statement loop of `Exec`: the first iteration additionally
latches `rs0`, the first statement's record set. -/
def execLoop (sb : SessionBehavior) (st : SessState) : List Stmt → ExecOut
  | [] => ⟨st, [], none, none⟩
  | s :: rest =>
    match (sb.executeStmt st s).2.2 with
    | some e =>
      ⟨appendError (sb.executeStmt st s).1 e, [SessEvent.executeStmt s], none,
        some (GoErr.traced e)⟩
    | none =>
      consEvent (SessEvent.executeStmt s)
        (execRest sb (sb.executeStmt st s).1 rest (sb.executeStmt st s).2.1)

/-- All statements of the list execute without error when run sequentially
from `st` (threading the session state). -/
def allOk (sb : SessionBehavior) : SessState → List Stmt → Bool
  | _, [] => true
  | st, s :: rest =>
    match (sb.executeStmt st s).2.2 with
    | some _ => false
    | none => allOk sb (sb.executeStmt st s).1 rest

/-- Session state after sequentially executing the statements from `st`. -/
def stateAfter (sb : SessionBehavior) : SessState → List Stmt → SessState
  | st, [] => st
  | st, s :: rest => stateAfter sb (sb.executeStmt st s).1 rest

/-- Record set produced by the first statement of the list when executed
from `st` (Go `rs0`; `none` for an empty list). -/
def firstRS (sb : SessionBehavior) (st : SessState) : List Stmt → Option RecordSet
  | [] => none
  | s :: _ => (sb.executeStmt st s).2.1

/-- After the statement loop: on the loop's early error return `Exec`
returns directly; otherwise the parser warnings (if any) are re-appended to
the statement context and `(rs0, nil)` is returned. -/
def loopCont (sql : String) (parserWarns : List WarnEntry) (o : ExecOut) : ExecOut :=
  match o.err with
  | some _ => consEvent (SessEvent.parse sql) o
  | none =>
    consEvent (SessEvent.parse sql)
      ⟨if parserWarns.length > 0 then appendWarnings o.st parserWarns else o.st,
        o.events, o.rs, none⟩

/-- Body of the zero-argument path after a successful `Parse`: compute
`parserWarns` as the warnings beyond the pre-parse prefix, run the loop,
then `loopCont`. -/
def afterParse (sb : SessionBehavior) (st1 : SessState) (sql : String)
    (stmts : List Stmt) (prevLen : Nat) : ExecOut :=
  loopCont sql (st1.warnings.drop prevLen) (execLoop sb st1 stmts)

/-- Dispatch on the result of `session.Parse`. -/
def parseCont (sb : SessionBehavior) (sql : String) (prevLen : Nat) :
    SessState × Except GoErr (List Stmt) → ExecOut
  | (st1, Except.error e) => ⟨st1, [SessEvent.parse sql], none, some (GoErr.traced e)⟩
  | (st1, Except.ok stmts) => afterParse sb st1 sql stmts prevLen

/-- The `len(args) == 0` path of `Exec`: save the current warning count,
parse, and continue. -/
def execNoArgs (sb : SessionBehavior) (st : SessState) (sql : String) : ExecOut :=
  parseCont sb sql st.warnings.length (sb.parse st sql)

/-- Dispatch on the result of `DropPreparedStmt`. -/
def dropCont (sql : String) (stmtID : Nat) (rs : Option RecordSet) :
    SessState × Option GoErr → ExecOut
  | (st3, some e) =>
    ⟨st3, [SessEvent.prepareStmt sql, SessEvent.executePreparedStmt stmtID,
      SessEvent.dropPreparedStmt stmtID], none, some (GoErr.traced e)⟩
  | (st3, none) =>
    ⟨st3, [SessEvent.prepareStmt sql, SessEvent.executePreparedStmt stmtID,
      SessEvent.dropPreparedStmt stmtID], rs, none⟩

/-- Dispatch on the result of `ExecutePreparedStmt`: on an error `Exec`
returns immediately (the prepared statement is not dropped on this path);
on success the statement is dropped and the record set returned. -/
def epCont (sb : SessionBehavior) (sql : String) (stmtID : Nat) :
    SessState × (Option RecordSet × Option GoErr) → ExecOut
  | (st2, (_, some e)) =>
    ⟨st2, [SessEvent.prepareStmt sql, SessEvent.executePreparedStmt stmtID], none,
      some (GoErr.traced e)⟩
  | (st2, (rs, none)) => dropCont sql stmtID rs (sb.dropPreparedStmt st2 stmtID)

/-- The positional-argument path after a successful `PrepareStmt`. -/
def afterPrepare (sb : SessionBehavior) (st1 : SessState) (sql : String)
    (stmtID : Nat) (params : List Datum) : ExecOut :=
  epCont sb sql stmtID (sb.executePreparedStmt st1 stmtID params)

/-- Dispatch on the result of `PrepareStmt`. -/
def prepCont (sb : SessionBehavior) (sql : String) (params : List Datum) :
    SessState × Except GoErr Nat → ExecOut
  | (st1, Except.error e) => ⟨st1, [SessEvent.prepareStmt sql], none, some (GoErr.traced e)⟩
  | (st1, Except.ok stmtID) => afterPrepare sb st1 sql stmtID params

/-- The `len(args) > 0` path of `Exec`: prepare, bind the arguments as
datums, execute, drop. -/
def execWithArgs (sb : SessionBehavior) (st : SessState) (sql : String)
    (args : List Datum) : ExecOut :=
  prepCont sb sql (args.map newDatum) (sb.prepareStmt st sql)

/-- Model of `TestKit.Exec` (testkit.go lines 143-189). -/
def Exec (sb : SessionBehavior) (st : SessState) (sql : String)
    (args : List Datum) : ExecOut :=
  if args.length = 0 then execNoArgs sb st sql else execWithArgs sb st sql args

/-- Model of `TestKit.MustQuery` restricted to what later helpers consume:
run `Exec`, fatally fail unless it succeeds with a non-nil record set and
the record set converts to string rows. -/
def MustQuery (sb : SessionBehavior) (st : SessState) (sql : String)
    (args : List Datum) : TestOutcome (List (List String)) :=
  match (Exec sb st sql args).err with
  | some _ => TestOutcome.fatal
  | none =>
    match (Exec sb st sql args).rs with
    | none => TestOutcome.fatal
    | some rs =>
      match sb.resultToStrings rs with
      | Except.error _ => TestOutcome.fatal
      | Except.ok rows => TestOutcome.ok rows

/-- Model of `TestKit.QueryToErr`: execute, fatally fail unless execution
succeeded with a non-nil record set, stream the rows, fatally fail unless
`Close` succeeds, and return the row-streaming error. -/
def QueryToErr (sb : SessionBehavior) (st : SessState) (sql : String)
    (args : List Datum) : TestOutcome (Option GoErr) :=
  match (Exec sb st sql args).err with
  | some _ => TestOutcome.fatal
  | none =>
    match (Exec sb st sql args).rs with
    | none => TestOutcome.fatal
    | some res =>
      match sb.closeRS res with
      | some _ => TestOutcome.fatal
      | none => TestOutcome.ok (sb.getRows res).2

/-- Model of `TestKit.MustGetErrCode` as the predicate "the test passes":
execute without arguments, require an error, require `errors.Cause` of it to
be the structured `terror.Error`, and require the carried SQL error code to
equal `errCode`. -/
def MustGetErrCode (sb : SessionBehavior) (st : SessState) (sql : String)
    (errCode : Nat) : Bool :=
  match (Exec sb st sql []).err with
  | none => false
  | some err =>
    match cause err with
    | GoErr.terror c => c == errCode
    | _ => false

/-- Character-list version of Go prefix testing used by `strings.Contains`. -/
def listPfx : List Char → List Char → Bool
  | [], _ => true
  | _ :: _, [] => false
  | a :: as, b :: bs => a == b && listPfx as bs

/-- Model of Go `strings.Contains s pat`: some suffix of `s` starts with
`pat`. -/
def listSub (s pat : List Char) : Bool :=
  match s with
  | [] => pat.isEmpty
  | _ :: rest => listPfx pat s || listSub rest pat

/-- Model of `TestKit.HasPlan`: run `explain <sql>`, return whether some
row's first column contains the plan fragment. -/
def HasPlan (sb : SessionBehavior) (st : SessState) (sql plan : String)
    (args : List Datum) : TestOutcome Bool :=
  match MustQuery sb st ("explain " ++ sql) args with
  | TestOutcome.fatal => TestOutcome.fatal
  | TestOutcome.ok rows =>
    TestOutcome.ok (rows.any fun r => listSub (r.getD 0 "").toList plan.toList)

/-- Model of `TestKit.MustUseIndex`: run `explain <sql>`, return whether
some row's fourth column contains `"index:" ++ index`. -/
def MustUseIndex (sb : SessionBehavior) (st : SessState) (sql index : String)
    (args : List Datum) : TestOutcome Bool :=
  match MustQuery sb st ("explain " ++ sql) args with
  | TestOutcome.fatal => TestOutcome.fatal
  | TestOutcome.ok rows =>
    TestOutcome.ok (rows.any fun r => listSub (r.getD 3 "").toList ("index:" ++ index).toList)

/-- Model of `atomic.Uint64.Inc` on the shared `testKitIDGenerator`:
increment modulo 2^64 and return the new value. -/
def incU64 (c : Nat) : Nat := (c + 1) % 18446744073709551616

/-- The three harness operations that assign a connection identifier; each
calls `testKitIDGenerator.Inc()` and assigns the returned value. -/
inductive HarnessOp where
  | newKit
  | refreshSession
  | refreshConnID
deriving DecidableEq, Repr

/-- Connection identifiers assigned by a sequence of harness operations,
starting from counter value `c`: every operation draws from the one shared
counter. -/
def runOps (c : Nat) : List HarnessOp → List Nat
  | [] => []
  | _ :: rest => incU64 c :: runOps (incU64 c) rest

/-- Initial session state used for concrete evaluations. -/
def st0 : SessState := ⟨[], 0⟩

/-- Default collaborator behaviour every concrete behaviour below overrides:
everything succeeds and does nothing. -/
def bDefault : SessionBehavior where
  parse := fun st _ => (st, Except.ok [])
  executeStmt := fun st _ => (st, (none, none))
  prepareStmt := fun st _ => (st, Except.ok 0)
  executePreparedStmt := fun st _ _ => (st, (none, none))
  dropPreparedStmt := fun st _ => (st, none)
  getRows := fun _ => ([], none)
  closeRS := fun _ => none
  resultToStrings := fun _ => Except.ok []

/-- Behaviour where `PrepareStmt` succeeds (id 7) and `ExecutePreparedStmt`
then fails. -/
def bExecPrepErr : SessionBehavior :=
  { bDefault with
    prepareStmt := fun st _ => (st, Except.ok 7)
    executePreparedStmt := fun st _ _ => (st, (none, some (GoErr.other 3))) }

/-- Behaviour where `PrepareStmt` succeeds (id 7), `ExecutePreparedStmt`
succeeds with record set 5, and `DropPreparedStmt` fails. -/
def bDropErr : SessionBehavior :=
  { bDefault with
    prepareStmt := fun st _ => (st, Except.ok 7)
    executePreparedStmt := fun st _ _ => (st, (some 5, none))
    dropPreparedStmt := fun st _ => (st, some (GoErr.other 4)) }

/-- Behaviour whose parse yields two statements and whose statements all
succeed, each producing itself as its record set. -/
def bTwoOk : SessionBehavior :=
  { bDefault with
    parse := fun st _ => (st, Except.ok [10, 11])
    executeStmt := fun st s => (st, (some s, none)) }

/-- Behaviour whose parse appends one warning and yields one statement, and
whose statement execution resets the statement context and fails. -/
def bWarnFail : SessionBehavior :=
  { bDefault with
    parse := fun st _ =>
      ({ st with warnings := st.warnings ++ [WarnEntry.warnLevel (GoErr.other 1)] },
        Except.ok [0])
    executeStmt := fun st _ => (⟨[], st.mem⟩, (none, some (GoErr.other 9))) }

/-- Behaviour whose parse appends one warning and yields one statement, and
whose statement execution resets the statement context and succeeds. -/
def bWarnOk : SessionBehavior :=
  { bDefault with
    parse := fun st _ =>
      ({ st with warnings := st.warnings ++ [WarnEntry.warnLevel (GoErr.other 1)] },
        Except.ok [0])
    executeStmt := fun st _ => (⟨[], st.mem⟩, (some 2, none)) }

/-- Behaviour whose parse fails with a structured error of SQL code 1105. -/
def bParseTerror : SessionBehavior :=
  { bDefault with
    parse := fun st _ => (st, Except.error (GoErr.terror 1105)) }

/-- Behaviour that executes successfully with record set 3 whose `Close`
fails although all rows stream out successfully. -/
def bCloseErr : SessionBehavior :=
  { bDefault with
    parse := fun st _ => (st, Except.ok [0])
    executeStmt := fun st _ => (st, (some 3, none))
    closeRS := fun _ => some (GoErr.other 4) }

/-- Behaviour that executes successfully with record set 3 whose row
streaming fails while `Close` succeeds. -/
def bStreamErr : SessionBehavior :=
  { bDefault with
    parse := fun st _ => (st, Except.ok [0])
    executeStmt := fun st _ => (st, (some 3, none))
    getRows := fun _ => ([], some (GoErr.other 8)) }

/-- Behaviour whose queries produce one explain row. -/
def bExplain : SessionBehavior :=
  { bDefault with
    parse := fun st _ => (st, Except.ok [0])
    executeStmt := fun st _ => (st, (some 5, none))
    resultToStrings := fun _ =>
      Except.ok [["TableReader_7", "10.00", "root", "index:idx_k, keep order:false"]] }

/-- Behaviour whose parse yields two statements of which the second fails. -/
def bSecondFails : SessionBehavior :=
  { bDefault with
    parse := fun st _ => (st, Except.ok [0, 1])
    executeStmt := fun st s =>
      if s = 0 then (st, (some 1, none)) else (st, (none, some (GoErr.other 5))) }

/-- If every statement of the list succeeds, the tail loop threads the state
through all of them, records one `executeStmt` event per statement, and
returns `(rs0, nil)`. -/
theorem execRest_allOk (sb : SessionBehavior) :
    ∀ (stmts : List Stmt) (st : SessState) (rs0 : Option RecordSet),
      allOk sb st stmts = true →
      execRest sb st stmts rs0 =
        ⟨stateAfter sb st stmts, stmts.map SessEvent.executeStmt, rs0, none⟩
  | [], st, rs0, _ => by simp [execRest, stateAfter]
  | s :: rest, st, rs0, h => by
    cases he : (sb.executeStmt st s).2.2 with
    | some e => simp [allOk, he] at h
    | none =>
      have h' : allOk sb (sb.executeStmt st s).1 rest = true := by
        simpa [allOk, he] using h
      simp [execRest, he, consEvent, execRest_allOk sb rest _ rs0 h', stateAfter]

/-- If the statements of `pre` succeed and `s` then fails with `e`, the tail
loop stops right after `s`: it appends `e` to the statement context, records
events only for `pre ++ [s]`, and returns `(nil, traced e)`. -/
theorem execRest_fail (sb : SessionBehavior) :
    ∀ (pre : List Stmt) (s : Stmt) (suf : List Stmt) (st : SessState)
      (rs0 : Option RecordSet) (e : GoErr),
      allOk sb st pre = true →
      (sb.executeStmt (stateAfter sb st pre) s).2.2 = some e →
      execRest sb st (pre ++ s :: suf) rs0 =
        ⟨appendError (sb.executeStmt (stateAfter sb st pre) s).1 e,
          (pre ++ [s]).map SessEvent.executeStmt, none, some (GoErr.traced e)⟩
  | [], s, suf, st, rs0, e, _, hfail => by
    simp only [stateAfter] at hfail
    simp [execRest, hfail, stateAfter]
  | p :: pre, s, suf, st, rs0, e, hok, hfail => by
    cases hp : (sb.executeStmt st p).2.2 with
    | some e2 => simp [allOk, hp] at hok
    | none =>
      have hok' : allOk sb (sb.executeStmt st p).1 pre = true := by
        simpa [allOk, hp] using hok
      have hfail' :
          (sb.executeStmt (stateAfter sb (sb.executeStmt st p).1 pre) s).2.2 = some e := by
        simpa [stateAfter] using hfail
      simp [execRest, hp, consEvent,
        execRest_fail sb pre s suf _ rs0 e hok' hfail', stateAfter]

/-- All-success characterisation of the whole statement loop: the record set
latched is the first statement's. -/
theorem execLoop_allOk (sb : SessionBehavior) (st : SessState) (stmts : List Stmt)
    (h : allOk sb st stmts = true) :
    execLoop sb st stmts =
      ⟨stateAfter sb st stmts, stmts.map SessEvent.executeStmt,
        firstRS sb st stmts, none⟩ := by
  cases stmts with
  | nil => simp [execLoop, stateAfter, firstRS]
  | cons s rest =>
    cases he : (sb.executeStmt st s).2.2 with
    | some e => simp [allOk, he] at h
    | none =>
      have h' : allOk sb (sb.executeStmt st s).1 rest = true := by
        simpa [allOk, he] using h
      simp [execLoop, he, consEvent, execRest_allOk sb rest _ _ h', stateAfter, firstRS]

/-- Failure characterisation of the whole statement loop. -/
theorem execLoop_fail (sb : SessionBehavior) (st : SessState) (pre : List Stmt)
    (s : Stmt) (suf : List Stmt) (e : GoErr)
    (hok : allOk sb st pre = true)
    (hfail : (sb.executeStmt (stateAfter sb st pre) s).2.2 = some e) :
    execLoop sb st (pre ++ s :: suf) =
      ⟨appendError (sb.executeStmt (stateAfter sb st pre) s).1 e,
        (pre ++ [s]).map SessEvent.executeStmt, none, some (GoErr.traced e)⟩ := by
  cases pre with
  | nil =>
    simp only [stateAfter] at hfail
    simp [execLoop, hfail, stateAfter]
  | cons p pre' =>
    cases hp : (sb.executeStmt st p).2.2 with
    | some e2 => simp [allOk, hp] at hok
    | none =>
      have hok' : allOk sb (sb.executeStmt st p).1 pre' = true := by
        simpa [allOk, hp] using hok
      have hfail' :
          (sb.executeStmt (stateAfter sb (sb.executeStmt st p).1 pre') s).2.2 = some e := by
        simpa [stateAfter] using hfail
      simp [execLoop, hp, consEvent,
        execRest_fail sb pre' s suf _ _ e hok' hfail', stateAfter]

/-- When `Parse` succeeds, the zero-argument path continues with the parsed
statement list. -/
theorem execNoArgs_parse_ok (sb : SessionBehavior) (st : SessState) (sql : String)
    {stmts : List Stmt} (hp : (sb.parse st sql).2 = Except.ok stmts) :
    execNoArgs sb st sql =
      afterParse sb (sb.parse st sql).1 sql stmts st.warnings.length := by
  unfold execNoArgs
  have hpair : sb.parse st sql = ((sb.parse st sql).1, Except.ok stmts) := by
    rw [← hp]
  rw [hpair]
  rfl

/-- Full characterisation of a zero-argument `Exec` whose parse succeeds and
whose statements all execute successfully: the parser warnings are
re-appended to the post-execution statement context, and the first
statement's record set is returned with no error. -/
theorem exec_noargs_allOk (sb : SessionBehavior) (st : SessState) (sql : String)
    (stmts : List Stmt) (hp : (sb.parse st sql).2 = Except.ok stmts)
    (hall : allOk sb (sb.parse st sql).1 stmts = true) :
    Exec sb st sql [] =
      ⟨(if ((sb.parse st sql).1.warnings.drop st.warnings.length).length > 0 then
          appendWarnings (stateAfter sb (sb.parse st sql).1 stmts)
            ((sb.parse st sql).1.warnings.drop st.warnings.length)
        else stateAfter sb (sb.parse st sql).1 stmts),
        SessEvent.parse sql :: stmts.map SessEvent.executeStmt,
        firstRS sb (sb.parse st sql).1 stmts, none⟩ := by
  have h0 : Exec sb st sql [] = execNoArgs sb st sql := by simp [Exec]
  rw [h0, execNoArgs_parse_ok sb st sql hp]
  unfold afterParse
  rw [execLoop_allOk sb _ stmts hall]
  simp [loopCont, consEvent]

/-- Full characterisation of a zero-argument `Exec` whose parse succeeds and
whose statement list fails at `s` after the successful prefix `pre`: the
error is appended to the statement context, no statement after `s` runs, the
parser warnings are not re-appended, and `(nil, traced e)` is returned. -/
theorem exec_noargs_fail (sb : SessionBehavior) (st : SessState) (sql : String)
    (stmts pre : List Stmt) (s : Stmt) (suf : List Stmt) (e : GoErr)
    (hp : (sb.parse st sql).2 = Except.ok stmts)
    (hsplit : stmts = pre ++ s :: suf)
    (hok : allOk sb (sb.parse st sql).1 pre = true)
    (hfail : (sb.executeStmt (stateAfter sb (sb.parse st sql).1 pre) s).2.2 = some e) :
    Exec sb st sql [] =
      ⟨appendError (sb.executeStmt (stateAfter sb (sb.parse st sql).1 pre) s).1 e,
        SessEvent.parse sql :: (pre ++ [s]).map SessEvent.executeStmt,
        none, some (GoErr.traced e)⟩ := by
  have h0 : Exec sb st sql [] = execNoArgs sb st sql := by simp [Exec]
  rw [h0, execNoArgs_parse_ok sb st sql hp]
  unfold afterParse
  rw [hsplit, execLoop_fail sb _ pre s suf e hok hfail]
  simp [loopCont, consEvent]

/-- When `PrepareStmt` succeeds, the positional-argument path continues with
the prepared statement id and the datum parameters. -/
theorem execWithArgs_prep_ok (sb : SessionBehavior) (st : SessState) (sql : String)
    (args : List Datum) {stmtID : Nat}
    (hp : (sb.prepareStmt st sql).2 = Except.ok stmtID) :
    execWithArgs sb st sql args =
      afterPrepare sb (sb.prepareStmt st sql).1 sql stmtID (args.map newDatum) := by
  unfold execWithArgs
  have hpair : sb.prepareStmt st sql = ((sb.prepareStmt st sql).1, Except.ok stmtID) := by
    rw [← hp]
  rw [hpair]
  rfl

/-- When `ExecutePreparedStmt` fails, `Exec` returns immediately with the
traced error; `DropPreparedStmt` is not called on this path. -/
theorem afterPrepare_ep_err (sb : SessionBehavior) (st1 : SessState) (sql : String)
    (stmtID : Nat) (params : List Datum) (e : GoErr)
    (he : (sb.executePreparedStmt st1 stmtID params).2.2 = some e) :
    afterPrepare sb st1 sql stmtID params =
      ⟨(sb.executePreparedStmt st1 stmtID params).1,
        [SessEvent.prepareStmt sql, SessEvent.executePreparedStmt stmtID], none,
        some (GoErr.traced e)⟩ := by
  unfold afterPrepare
  have hpair : sb.executePreparedStmt st1 stmtID params =
      ((sb.executePreparedStmt st1 stmtID params).1,
        ((sb.executePreparedStmt st1 stmtID params).2.1, some e)) := by
    rw [← he]
  rw [hpair]
  rfl

/-- When `ExecutePreparedStmt` succeeds, the statement is dropped and the
result depends on the drop outcome. -/
theorem afterPrepare_ep_ok (sb : SessionBehavior) (st1 : SessState) (sql : String)
    (stmtID : Nat) (params : List Datum)
    (he : (sb.executePreparedStmt st1 stmtID params).2.2 = none) :
    afterPrepare sb st1 sql stmtID params =
      dropCont sql stmtID (sb.executePreparedStmt st1 stmtID params).2.1
        (sb.dropPreparedStmt (sb.executePreparedStmt st1 stmtID params).1 stmtID) := by
  unfold afterPrepare
  have hpair : sb.executePreparedStmt st1 stmtID params =
      ((sb.executePreparedStmt st1 stmtID params).1,
        ((sb.executePreparedStmt st1 stmtID params).2.1, none)) := by
    rw [← he]
  rw [hpair]
  rfl

/-- Both branches of `dropCont` record the same three session calls, ending
with the drop. -/
theorem dropCont_events (sql : String) (stmtID : Nat) (rs : Option RecordSet)
    (p : SessState × Option GoErr) :
    (dropCont sql stmtID rs p).events =
      [SessEvent.prepareStmt sql, SessEvent.executePreparedStmt stmtID,
        SessEvent.dropPreparedStmt stmtID] := by
  obtain ⟨st3, d⟩ := p
  cases d <;> rfl

/-- When the drop fails, `Exec` returns `(nil, traced e)`: the record set is
discarded. -/
theorem dropCont_err (sql : String) (stmtID : Nat) (rs : Option RecordSet)
    (p : SessState × Option GoErr) (e : GoErr) (h : p.2 = some e) :
    dropCont sql stmtID rs p =
      ⟨p.1, [SessEvent.prepareStmt sql, SessEvent.executePreparedStmt stmtID,
        SessEvent.dropPreparedStmt stmtID], none, some (GoErr.traced e)⟩ := by
  have hpair : p = (p.1, some e) := by rw [← h]
  rw [hpair]
  rfl

/-- Boolean prefix test agrees with `List.IsPrefix`. -/
theorem listPfx_iff (p : List Char) : ∀ s : List Char, listPfx p s = true ↔ p <+: s := by
  induction p with
  | nil => intro s; simp [listPfx]
  | cons a as ih =>
    intro s
    cases s with
    | nil => simp [listPfx]
    | cons b bs => simp [listPfx, ih, List.cons_prefix_cons]

/-- Boolean substring test agrees with `List.IsInfix`: this is the model of
Go `strings.Contains`. -/
theorem listSub_iff (p : List Char) : ∀ s : List Char, listSub s p = true ↔ p <:+: s := by
  intro s
  induction s with
  | nil => simp [listSub]
  | cons b bs ih => simp [listSub, listPfx_iff, ih, List.infix_cons_iff]

/-- Every identifier handed out by a run of harness operations whose counter
does not wrap lies strictly between the initial counter value and the final
one. -/
theorem runOps_mem_bounds (ops : List HarnessOp) :
    ∀ c : Nat, c + ops.length < 18446744073709551616 →
      ∀ x ∈ runOps c ops, c < x ∧ x ≤ c + ops.length := by
  induction ops with
  | nil => intro c _ x hx; simp [runOps] at hx
  | cons op rest ih =>
    intro c hc x hx
    have hlen : (op :: rest).length = rest.length + 1 := rfl
    have hinc : incU64 c = c + 1 := by
      have : c + 1 < 18446744073709551616 := by rw [hlen] at hc; omega
      simp [incU64, Nat.mod_eq_of_lt this]
    rw [runOps, hinc] at hx
    rcases List.mem_cons.mp hx with h | h
    · subst h; rw [hlen]; omega
    · have hb := ih (c + 1) (by rw [hlen] at hc; omega) x h
      rw [hlen]; omega

/-- Identifiers handed out by a run of harness operations whose counter does
not wrap are strictly increasing along the run. -/
theorem runOps_pairwise (ops : List HarnessOp) :
    ∀ c : Nat, c + ops.length < 18446744073709551616 →
      List.Pairwise (· < ·) (runOps c ops) := by
  induction ops with
  | nil => intro c _; simp [runOps]
  | cons op rest ih =>
    intro c hc
    have hlen : (op :: rest).length = rest.length + 1 := rfl
    have hc' : c + 1 + rest.length < 18446744073709551616 := by rw [hlen] at hc; omega
    have hinc : incU64 c = c + 1 := by
      have : c + 1 < 18446744073709551616 := by omega
      simp [incU64, Nat.mod_eq_of_lt this]
    rw [runOps, hinc]
    exact List.Pairwise.cons
      (fun x hx => (runOps_mem_bounds rest (c + 1) hc' x hx).1)
      (ih (c + 1) hc')

/-- C1 (counterexample): an `Execute` call with one positional argument in
which `PrepareStmt` succeeds (id 7) and `ExecutePreparedStmt` then fails:
`Exec` returns the error, yet no `DropPreparedStmt` call is recorded, so the
claim that the prepared statement is dropped on every exit path fails on the
code. -/
theorem C1_counterexample :
    (bExecPrepErr.prepareStmt st0 "s").2 = Except.ok 7 ∧
    (Exec bExecPrepErr st0 "s" [1]).err = some (GoErr.traced (GoErr.other 3)) ∧
    SessEvent.dropPreparedStmt 7 ∉ (Exec bExecPrepErr st0 "s" [1]).events := by
  refine ⟨rfl, rfl, ?_⟩
  decide

/-- C1 (amended): in an `Execute` call with positional arguments in which
`PrepareStmt` succeeds, `DropPreparedStmt` is called on the prepared
statement's id if and only if `ExecutePreparedStmt` succeeds; when
`ExecutePreparedStmt` returns an error, `Exec` returns at once and the
prepared statement is not dropped. -/
theorem C1_drop_iff_execute_ok (sb : SessionBehavior) (st : SessState) (sql : String)
    (args : List Datum) (stmtID : Nat)
    (hargs : args.length ≠ 0)
    (hprep : (sb.prepareStmt st sql).2 = Except.ok stmtID) :
    SessEvent.dropPreparedStmt stmtID ∈ (Exec sb st sql args).events ↔
      (sb.executePreparedStmt (sb.prepareStmt st sql).1 stmtID (args.map newDatum)).2.2
        = none := by
  have h0 : Exec sb st sql args = execWithArgs sb st sql args := by
    simp [Exec, hargs]
  rw [h0, execWithArgs_prep_ok sb st sql args hprep]
  cases he :
      (sb.executePreparedStmt (sb.prepareStmt st sql).1 stmtID (args.map newDatum)).2.2 with
  | some e =>
    rw [afterPrepare_ep_err sb _ sql stmtID _ e he]
    simp
  | none =>
    rw [afterPrepare_ep_ok sb _ sql stmtID _ he]
    simp [dropCont_events]

/-- C1 (witness): with `bDropErr`, prepare and execute succeed, and the drop
call is recorded. -/
theorem C1_witness :
    SessEvent.dropPreparedStmt 7 ∈ (Exec bDropErr st0 "q" [1]).events :=
  (C1_drop_iff_execute_ok bDropErr st0 "q" [1] 7 (by decide) rfl).mpr rfl

/-- C2: for a zero-argument `Execute` whose text parses into `stmts`, the
statements run sequentially in order through `ExecuteStmt`; if all succeed,
the record set of the first statement is returned with no error; if a
statement fails after a successful prefix, no later statement runs and that
error (trace-wrapped) is returned with a nil record set. -/
theorem C2_sequential_execution (sb : SessionBehavior) (st : SessState) (sql : String)
    (stmts : List Stmt) (hp : (sb.parse st sql).2 = Except.ok stmts) :
    (allOk sb (sb.parse st sql).1 stmts = true →
      (Exec sb st sql []).rs = firstRS sb (sb.parse st sql).1 stmts ∧
      (Exec sb st sql []).err = none ∧
      (Exec sb st sql []).events =
        SessEvent.parse sql :: stmts.map SessEvent.executeStmt) ∧
    (∀ (pre : List Stmt) (s : Stmt) (suf : List Stmt) (e : GoErr),
      stmts = pre ++ s :: suf →
      allOk sb (sb.parse st sql).1 pre = true →
      (sb.executeStmt (stateAfter sb (sb.parse st sql).1 pre) s).2.2 = some e →
      (Exec sb st sql []).err = some (GoErr.traced e) ∧
      (Exec sb st sql []).rs = none ∧
      (Exec sb st sql []).events =
        SessEvent.parse sql :: (pre ++ [s]).map SessEvent.executeStmt) := by
  constructor
  · intro hall
    rw [exec_noargs_allOk sb st sql stmts hp hall]
    exact ⟨rfl, rfl, rfl⟩
  · intro pre s suf e hsplit hok hfail
    rw [exec_noargs_fail sb st sql stmts pre s suf e hp hsplit hok hfail]
    exact ⟨rfl, rfl, rfl⟩

/-- C2 (witness): a two-statement batch that fully succeeds returns the
first statement's record set and records both executions in order. -/
theorem C2_witness :
    (Exec bTwoOk st0 "t" []).rs = firstRS bTwoOk (bTwoOk.parse st0 "t").1 [10, 11] ∧
    (Exec bTwoOk st0 "t" []).err = none ∧
    (Exec bTwoOk st0 "t" []).events =
      SessEvent.parse "t" :: [10, 11].map SessEvent.executeStmt :=
  (C2_sequential_execution bTwoOk st0 "t" [10, 11] rfl).1 (by decide)

/-- C3 (counterexample): parsing adds one warning, the single statement then
resets the statement context and fails; `Exec` returns without re-appending
the parser warnings, so the warning parsing added is absent from the warning
list when `Exec` returns, refuting the claim for error paths. -/
theorem C3_counterexample :
    ((bWarnFail.parse st0 "q").1.warnings.drop st0.warnings.length =
      [WarnEntry.warnLevel (GoErr.other 1)]) ∧
    WarnEntry.warnLevel (GoErr.other 1) ∉ (Exec bWarnFail st0 "q" []).st.warnings := by
  refine ⟨rfl, ?_⟩
  decide

/-- C3 (amended): for a zero-argument `Execute` whose parse succeeds and
whose statements all execute successfully, the warnings parsing added (those
beyond the pre-parse prefix) are appended to the session's warning list by
the time `Exec` returns: the final list is the post-execution list followed
by the parser warnings.  When a statement fails, `Exec` returns without
re-appending them. -/
theorem C3_parse_warnings_on_success (sb : SessionBehavior) (st : SessState)
    (sql : String) (stmts : List Stmt)
    (hp : (sb.parse st sql).2 = Except.ok stmts)
    (hall : allOk sb (sb.parse st sql).1 stmts = true) :
    (Exec sb st sql []).st.warnings =
      (stateAfter sb (sb.parse st sql).1 stmts).warnings ++
        ((sb.parse st sql).1.warnings.drop st.warnings.length) := by
  rw [exec_noargs_allOk sb st sql stmts hp hall]
  cases hw : (sb.parse st sql).1.warnings.drop st.warnings.length with
  | nil => simp [hw]
  | cons w ws => simp [hw, appendWarnings]

/-- C3 (witness): a statement execution that wipes the warning list still
ends with the parser warning re-appended when it succeeds. -/
theorem C3_witness :
    (Exec bWarnOk st0 "q" []).st.warnings =
      (stateAfter bWarnOk (bWarnOk.parse st0 "q").1 [0]).warnings ++
        ((bWarnOk.parse st0 "q").1.warnings.drop st0.warnings.length) :=
  C3_parse_warnings_on_success bWarnOk st0 "q" [0] rfl (by decide)

/-- C4: `MustGetErrCode` passes exactly when execution failed and
`errors.Cause` of the returned error is the structured error type carrying
the expected SQL code; when execution succeeds, or the cause is not the
structured type, or the code differs, the test fails. -/
theorem C4_must_get_err_code (sb : SessionBehavior) (st : SessState) (sql : String)
    (errCode : Nat) :
    ((Exec sb st sql []).err = none → MustGetErrCode sb st sql errCode = false) ∧
    (∀ e, (Exec sb st sql []).err = some e →
      (MustGetErrCode sb st sql errCode = true ↔ cause e = GoErr.terror errCode)) := by
  constructor
  · intro h
    simp [MustGetErrCode, h]
  · intro e h
    cases hc : cause e with
    | terror c => simp [MustGetErrCode, h, hc]
    | other t => simp [MustGetErrCode, h, hc]
    | traced e2 => simp [MustGetErrCode, h, hc]

/-- C4 (witness): a parse failure with structured code 1105 makes
`MustGetErrCode _ 1105` pass. -/
theorem C4_witness : MustGetErrCode bParseTerror st0 "bad" 1105 = true :=
  ((C4_must_get_err_code bParseTerror st0 "bad" 1105).2
    (GoErr.traced (GoErr.terror 1105)) rfl).mpr rfl

/-- C5 (counterexample): execution succeeds with record set 3, all rows
stream out successfully, but `Close` fails: `QueryToErr` fatally fails the
test instead of returning `nil`, refuting the claim that it returns exactly
the row-streaming error. -/
theorem C5_counterexample :
    (Exec bCloseErr st0 "q" []).err = none ∧
    (Exec bCloseErr st0 "q" []).rs = some 3 ∧
    (bCloseErr.getRows 3).2 = none ∧
    QueryToErr bCloseErr st0 "q" [] = TestOutcome.fatal := by
  exact ⟨rfl, rfl, rfl, rfl⟩

/-- C5 (amended): `QueryToErr` fatally fails unless the execution itself
succeeded with a non-nil record set; given that, if the record set's `Close`
succeeds it returns exactly the row-streaming error (`nil` when all rows
stream successfully), and if `Close` fails it fatally fails the test. -/
theorem C5_query_to_err_spec (sb : SessionBehavior) (st : SessState) (sql : String)
    (args : List Datum) :
    ((Exec sb st sql args).err ≠ none → QueryToErr sb st sql args = TestOutcome.fatal) ∧
    ((Exec sb st sql args).err = none → (Exec sb st sql args).rs = none →
      QueryToErr sb st sql args = TestOutcome.fatal) ∧
    (∀ r, (Exec sb st sql args).err = none → (Exec sb st sql args).rs = some r →
      sb.closeRS r ≠ none → QueryToErr sb st sql args = TestOutcome.fatal) ∧
    (∀ r, (Exec sb st sql args).err = none → (Exec sb st sql args).rs = some r →
      sb.closeRS r = none →
      QueryToErr sb st sql args = TestOutcome.ok (sb.getRows r).2) := by
  refine ⟨?_, ?_, ?_, ?_⟩
  · intro h
    cases he : (Exec sb st sql args).err with
    | none => exact absurd he h
    | some e => simp [QueryToErr, he]
  · intro h1 h2
    simp [QueryToErr, h1, h2]
  · intro r h1 h2 h3
    cases hc : sb.closeRS r with
    | none => exact absurd hc h3
    | some e => simp [QueryToErr, h1, h2, hc]
  · intro r h1 h2 h3
    simp [QueryToErr, h1, h2, h3]

/-- C5 (witness): a row-streaming failure after a successful execute and a
successful `Close` is returned by `QueryToErr`. -/
theorem C5_witness :
    QueryToErr bStreamErr st0 "q" [] = TestOutcome.ok (bStreamErr.getRows 3).2 :=
  (C5_query_to_err_spec bStreamErr st0 "q" []).2.2.2 3 rfl rfl rfl

/-- C6: `MustUseIndex` returns true exactly when some row of the normalized
result of `explain <sql>` contains `index:<indexName>` as a substring of its
fourth column (index 3). -/
theorem C6_must_use_index_iff (sb : SessionBehavior) (st : SessState)
    (sql index : String) (args : List Datum) (rows : List (List String))
    (hq : MustQuery sb st ("explain " ++ sql) args = TestOutcome.ok rows)
    (_hcols : ∀ r ∈ rows, 3 < r.length) :
    (MustUseIndex sb st sql index args = TestOutcome.ok true ↔
      ∃ r ∈ rows, ("index:" ++ index).toList <:+: (r.getD 3 "").toList) := by
  unfold MustUseIndex
  rw [hq]
  simp [List.any_eq_true, listSub_iff]

/-- C6 (witness): an explain row whose fourth column contains `index:idx_k`
makes `MustUseIndex _ "idx_k"` return true. -/
theorem C6_witness :
    MustUseIndex bExplain st0 "select 1" "idx_k" [] = TestOutcome.ok true :=
  (C6_must_use_index_iff bExplain st0 "select 1" "idx_k" []
      [["TableReader_7", "10.00", "root", "index:idx_k, keep order:false"]] rfl
      (by decide)).mpr
    ⟨["TableReader_7", "10.00", "root", "index:idx_k, keep order:false"],
      by decide, by decide⟩

/-- C7: `HasPlan` returns true exactly when some row of the normalized
result of `explain <sql>` contains the plan fragment as a substring of its
first column (index 0). -/
theorem C7_has_plan_iff (sb : SessionBehavior) (st : SessState)
    (sql plan : String) (args : List Datum) (rows : List (List String))
    (hq : MustQuery sb st ("explain " ++ sql) args = TestOutcome.ok rows)
    (_hcols : ∀ r ∈ rows, 0 < r.length) :
    (HasPlan sb st sql plan args = TestOutcome.ok true ↔
      ∃ r ∈ rows, plan.toList <:+: (r.getD 0 "").toList) := by
  unfold HasPlan
  rw [hq]
  simp [List.any_eq_true, listSub_iff]

/-- C7 (witness): an explain row whose first column contains `TableReader`
makes `HasPlan _ "TableReader"` return true. -/
theorem C7_witness :
    HasPlan bExplain st0 "select 1" "TableReader" [] = TestOutcome.ok true :=
  (C7_has_plan_iff bExplain st0 "select 1" "TableReader" []
      [["TableReader_7", "10.00", "root", "index:idx_k, keep order:false"]] rfl
      (by decide)).mpr
    ⟨["TableReader_7", "10.00", "root", "index:idx_k, keep order:false"],
      by decide, by decide⟩

/-- C8: connection identifiers assigned by successive harness creations and
refreshes — `NewTestKit`, `RefreshSession` and `RefreshConnectionID` all
draw from the one shared counter — are strictly increasing along the run and
never repeat, for any run in which the 64-bit counter does not wrap. -/
theorem C8_ids_strictly_increasing (ops : List HarnessOp)
    (h : ops.length < 18446744073709551616) :
    List.Pairwise (· < ·) (runOps 0 ops) ∧ (runOps 0 ops).Nodup := by
  have hp := runOps_pairwise ops 0 (by omega)
  exact ⟨hp, hp.imp fun hlt => Nat.ne_of_lt hlt⟩

/-- C8 (witness): one creation followed by two refreshes yields identifiers
1, 2, 3: strictly increasing and distinct. -/
theorem C8_witness :
    List.Pairwise (· < ·)
      (runOps 0 [HarnessOp.newKit, HarnessOp.refreshSession, HarnessOp.refreshConnID]) ∧
    (runOps 0 [HarnessOp.newKit, HarnessOp.refreshSession, HarnessOp.refreshConnID]).Nodup :=
  C8_ids_strictly_increasing
    [HarnessOp.newKit, HarnessOp.refreshSession, HarnessOp.refreshConnID] (by decide)

/-- C9: when a statement of a zero-argument batch fails with error `e` after
a successful prefix, the error is appended (error-level) to the statement
context's warning list before `Exec` returns, and `Exec` returns a nil
record set with the traced error — even when the first statement had already
produced a record set. -/
theorem C9_error_appended_nil_rs (sb : SessionBehavior) (st : SessState) (sql : String)
    (stmts pre : List Stmt) (s : Stmt) (suf : List Stmt) (e : GoErr)
    (hp : (sb.parse st sql).2 = Except.ok stmts)
    (hsplit : stmts = pre ++ s :: suf)
    (hok : allOk sb (sb.parse st sql).1 pre = true)
    (hfail : (sb.executeStmt (stateAfter sb (sb.parse st sql).1 pre) s).2.2 = some e) :
    (Exec sb st sql []).rs = none ∧
    (Exec sb st sql []).st.warnings =
      ((sb.executeStmt (stateAfter sb (sb.parse st sql).1 pre) s).1).warnings ++
        [WarnEntry.errLevel e] ∧
    (Exec sb st sql []).err = some (GoErr.traced e) := by
  rw [exec_noargs_fail sb st sql stmts pre s suf e hp hsplit hok hfail]
  exact ⟨rfl, rfl, rfl⟩

/-- C9 (witness): a two-statement batch whose first statement produces a
record set and whose second fails returns nil with the error appended. -/
theorem C9_witness :
    (Exec bSecondFails st0 "a; b" []).rs = none ∧
    (Exec bSecondFails st0 "a; b" []).st.warnings =
      ((bSecondFails.executeStmt
          (stateAfter bSecondFails (bSecondFails.parse st0 "a; b").1 [0]) 1).1).warnings ++
        [WarnEntry.errLevel (GoErr.other 5)] ∧
    (Exec bSecondFails st0 "a; b" []).err = some (GoErr.traced (GoErr.other 5)) :=
  C9_error_appended_nil_rs bSecondFails st0 "a; b" [0, 1] [0] 1 [] (GoErr.other 5)
    rfl rfl (by decide) rfl

/-- C10: when `PrepareStmt` and `ExecutePreparedStmt` succeed but
`DropPreparedStmt` fails, `Exec` returns a nil record set together with the
(trace-wrapped) drop error, so the produced record set is never surfaced. -/
theorem C10_drop_error_hides_rs (sb : SessionBehavior) (st : SessState) (sql : String)
    (args : List Datum) (stmtID : Nat) (e : GoErr)
    (hargs : args.length ≠ 0)
    (hprep : (sb.prepareStmt st sql).2 = Except.ok stmtID)
    (hexec : (sb.executePreparedStmt (sb.prepareStmt st sql).1 stmtID
      (args.map newDatum)).2.2 = none)
    (hdrop : (sb.dropPreparedStmt
        (sb.executePreparedStmt (sb.prepareStmt st sql).1 stmtID (args.map newDatum)).1
        stmtID).2 = some e) :
    (Exec sb st sql args).rs = none ∧
    (Exec sb st sql args).err = some (GoErr.traced e) := by
  have h0 : Exec sb st sql args = execWithArgs sb st sql args := by
    simp [Exec, hargs]
  rw [h0, execWithArgs_prep_ok sb st sql args hprep,
    afterPrepare_ep_ok sb _ sql stmtID _ hexec,
    dropCont_err _ _ _ _ e hdrop]
  exact ⟨rfl, rfl⟩

/-- C10 (witness): with `bDropErr` the record set 5 produced by the prepared
execution is hidden and the drop error returned. -/
theorem C10_witness :
    (Exec bDropErr st0 "q" [1]).rs = none ∧
    (Exec bDropErr st0 "q" [1]).err = some (GoErr.traced (GoErr.other 4)) :=
  C10_drop_error_hides_rs bDropErr st0 "q" [1] 7 (GoErr.other 4) (by decide) rfl rfl rfl

end TestKit
